import Mathlib

/-!
# Verification of the RAiDER interpolate dispatch module

Shallow embedding of `tools/bindings/interpolate/src/module.cpp`, the
pybind11 entry point of the fast linear interpolator.  The module
validates array shapes, chooses a worker count from a size-tiered table,
partitions the query batch into contiguous chunks, fans the chunks out to
`std::async` tasks (for 1/2/3-dimensional grids), or calls the generic
N-dimensional kernel once, and returns a freshly allocated output array.

The interpolation kernels themselves (`interpolate_1d`, `interpolate_2d`,
`interpolate_3d` and the generic `interpolate`) live in `interpolate.h`,
which is not part of the sources examined here; where a property depends
on them they are modelled from the specification (each kernel writes one
interpolated value per query point of its output slice).

Machine integers (`size_t`) are modelled as `Nat`: every quantity involved
(array lengths, thread counts, chunk indices) is far below 2^64, and no
subtraction in the translated code can wrap because each `a - b` occurs
under a guard establishing `b ≤ a`; `Nat` truncated subtraction agrees with
`size_t` subtraction there.
-/

/-- Embeds `module.cpp:63-72`: the size-tiered table choosing how many
worker threads the dispatch layer would like to use for a query batch of
`num_elements` points. -/
def desired_threads (num_elements : Nat) : Nat :=
  if num_elements < 10000 then 1
  else if num_elements < 4000000 then 2
  else if num_elements < 160000000 then 4
  else 8

/-- Embeds `module.cpp:73-76`: the effective worker count is
`min(desired_threads, max_threads)`, floored to 1 when that minimum is 0. -/
def num_threads (num_elements max_threads : Nat) : Nat :=
  let n := min (desired_threads num_elements) max_threads
  if n = 0 then 1 else n

/-- Embeds `module.cpp:250`: the default value of the `max_threads`
keyword argument. -/
def default_max_threads : Nat := 8

/-- Embeds `module.cpp:77`: `stride = num_elements / num_threads`
(integer division on `size_t`). -/
def stride (num_elements num_threads : Nat) : Nat :=
  num_elements / num_threads

/-- Embeds the chunk-size ternary at `module.cpp:110` (and its copies at
lines 151 and 198): worker `i` starts at `index = i * stride` and receives
`index + stride < num_elements ? stride : num_elements - index` points. -/
def chunkSize (num_elements str i : Nat) : Nat :=
  if i * str + str < num_elements then str else num_elements - i * str

/-- The set of output indices assigned to worker `i` of `w` workers on a
batch of `ne` points: the half-open interval starting at `i * stride` of
length `chunkSize` (`module.cpp:100-113`). -/
def chunkSet (ne w i : Nat) : Finset Nat :=
  Finset.Ico (i * stride ne w) (i * stride ne w + chunkSize ne (stride ne w) i)

/-- Holds (as `true`) when output index `j` lies in the chunk of some worker
`i < w`, i.e. when the fan-out loop at `module.cpp:100-113` assigns index
`j` to any task. -/
def coveredByChunks (ne w j : Nat) : Bool :=
  (List.range w).any fun i =>
    decide (i * stride ne w ≤ j) &&
      decide (j < i * stride ne w + chunkSize ne (stride ne w) i)

/-- Which output indices receive a value.  The dispatch structure is that
of `module.cpp:87-117`: with one effective worker the kernel is called
directly on the whole batch, otherwise each worker handles its chunk.
Modelled from the spec for the kernels themselves (`interpolate.h` is not
among the sources): a kernel invoked on a slice of `n` query points writes
one interpolated value to each of the `n` output positions of its slice
(spec section 4.2). -/
def writesIndex (ne mt j : Nat) : Bool :=
  if num_threads ne mt = 1 then decide (j < ne)
  else coveredByChunks ne (num_threads ne mt) j

/-- Worker-count table as the specification words it (section 4.4):
`< 10,000 → 1`, `< 4,000,000 → 2`, `< 160,000,000 → 4`, otherwise 8. -/
def spec_desired_workers (ne : Nat) : Nat :=
  if ne < 10000 then 1
  else if ne < 4000000 then 2
  else if ne < 160000000 then 4
  else 8

/-- Effective workers as the specification words it:
`min(desired, max_threads)`, floored to 1 if the result is 0. -/
def spec_effective_workers (ne mt : Nat) : Nat :=
  if min (spec_desired_workers ne) mt = 0 then 1
  else min (spec_desired_workers ne) mt

/-- Embeds the join loop at `module.cpp:114-116` (and its copies at lines
155-157 and 202-204): the loop body evaluates `std::move(future)`, an
expression with no effect; no `get()` or `wait()` is called, so an
exception stored in a worker future is never retrieved and the call
proceeds to build its normal return value whatever the worker outcomes
were.  `outcomes` lists each worker task result in order. -/
def joinWorkers (outcomes : List (Except String Unit)) : Except String Unit :=
  outcomes.foldl (fun acc _f => acc) (Except.ok ())

/-- The join behaviour the specification requires (sections 5 and 7): the
first failure observed among the workers is propagated to the caller after
all workers are joined. -/
def specJoinWorkers (outcomes : List (Except String Unit)) : Except String Unit :=
  outcomes.foldl
    (fun acc f => match acc with
      | Except.error e => Except.error e
      | Except.ok _ => f)
    (Except.ok ())

/-- The validation errors thrown at `module.cpp:26-53`, in source order.
Each constructor corresponds to one `throw py::type_error(...)` with a
descriptive message; the mismatch constructors carry the dimension counts
interpolated into the message text. -/
inductive ValError where
  /-- Thrown at `module.cpp:26-28`: values or query array is 0-dimensional. -/
  | scalarInput : ValError
  /-- Thrown at `module.cpp:30-34`: some axis array is not 1-dimensional. -/
  | axisNot1D : ValError
  /-- Thrown at `module.cpp:36-41`: axis count differs from the values rank. -/
  | gridValuesMismatch (gridDims valuesDims : Nat) : ValError
  /-- Thrown at `module.cpp:43-45`: the query array is not 2-dimensional. -/
  | interpNot2D : ValError
  /-- Thrown at `module.cpp:47-53`: query column count differs from the axis count. -/
  | gridInterpMismatch (gridDims interpDims : Nat) : ValError
deriving DecidableEq

/-- Embeds the validation block `module.cpp:24-54`.  Arrays are
represented by their shapes (`axes` holds one shape per grid axis,
`valuesShape` and `interpShape` the shapes of the values and query
arrays).  Checks run in source order; on success the result is
`num_elements = interp_points.shape()[0]`. -/
def validate (axes : List (List Nat)) (valuesShape interpShape : List Nat) :
    Except ValError Nat :=
  if valuesShape.length = 0 ∨ interpShape.length = 0 then
    Except.error ValError.scalarInput
  else if axes.any (fun a => a.length ≠ 1) then
    Except.error ValError.axisNot1D
  else if axes.length ≠ valuesShape.length then
    Except.error (ValError.gridValuesMismatch axes.length valuesShape.length)
  else if interpShape.length ≠ 2 then
    Except.error ValError.interpNot2D
  else if axes.length ≠ interpShape.getD 1 0 then
    Except.error (ValError.gridInterpMismatch axes.length (interpShape.getD 1 0))
  else
    Except.ok (interpShape.getD 0 0)

/-- The argument lengths handed to the generic N-dimensional kernel. -/
structure GenericCallArgs where
  /-- One slice length per axis. -/
  gridLens : List Nat
  /-- Length of the sample-tensor slice. -/
  valuesLen : Nat
  /-- Length of the query-batch slice. -/
  interpLen : Nat
  /-- Length of the output slice. -/
  outLen : Nat
deriving DecidableEq

/-- Embeds the slice construction of the generic branch,
`module.cpp:206-230`.  `valuesCount` is `values_info.size`, the element
count of the values array (pybind11 `buffer_info::size` counts elements).
The code divides it by `sizeof(double)` (= 8) to obtain the values-slice
length, and reuses that same quantity — derived from the VALUES array —
as the query-batch slice length (`module.cpp:215-222`). -/
def genericCallArgs (axisLens : List Nat) (valuesCount numElements : Nat) :
    GenericCallArgs :=
  { gridLens := axisLens
    valuesLen := valuesCount / 8
    interpLen := valuesCount / 8
    outLen := numElements }

/-- The generic-kernel call contract as the specification words it
(sections 4.2 and 4.3): one slice per axis with that axis length, a
sample-tensor slice whose length is the element count of the tensor, a
query slice covering all `numElements × numDims` coordinates, and an
output slice of length `numElements`. -/
def specGenericCallArgs (axisLens : List Nat)
    (valuesCount numElements numDims : Nat) : GenericCallArgs :=
  { gridLens := axisLens
    valuesLen := valuesCount
    interpLen := numElements * numDims
    outLen := numElements }

/-- Observable outcome of a successful call: which kernel family ran, the
worker count, whether the `std::async` fan-out branch was taken, the
`(start, size)` chunk list handed to the workers, the query-point count of
a direct (single) kernel invocation, the argument lengths of a generic
kernel invocation, and the shape of the returned array. -/
structure CallResult where
  /-- The grid dimension count selecting the kernel (`module.cpp:82-231`). -/
  numDims : Nat
  /-- Effective worker count (`module.cpp:73-76`). -/
  numThreads : Nat
  /-- Set to `true` when the `std::async` fan-out branch ran. -/
  usedAsync : Bool
  /-- Pairs `(i * stride, chunkSize i)` per worker when fanned out, `[]` otherwise. -/
  chunks : List (Nat × Nat)
  /-- Query-point count of the single direct kernel call, when one happened. -/
  directCount : Option Nat
  /-- Slice lengths passed to the generic kernel, when it was selected. -/
  genericArgs : Option GenericCallArgs
  /-- Shape of the returned array (`module.cpp:239-244`). -/
  outShape : List Nat
deriving DecidableEq

/-- Embeds the whole entry point `module.cpp:18-245` at the level of
shapes and dispatch structure: validation first (errors abort the call
before the output buffer at line 55 is allocated and before any kernel
runs), then worker-count selection, then one of the three dispatch forms —
direct fixed-dimension kernel call, `std::async` fan-out over chunks
(grid dimension 1, 2 or 3 with more than one worker), or a single generic
kernel call (any other dimension count) — and finally the
`(num_elements,)`-shaped return array. -/
def interpolateCall (axes : List (List Nat)) (valuesShape interpShape : List Nat)
    (max_threads : Nat) : Except ValError CallResult :=
  match validate axes valuesShape interpShape with
  | Except.error e => Except.error e
  | Except.ok num_elements =>
    let num_dims := axes.length
    let nt := num_threads num_elements max_threads
    let str := stride num_elements nt
    if num_dims = 1 ∨ num_dims = 2 ∨ num_dims = 3 then
      if nt = 1 then
        Except.ok
          { numDims := num_dims, numThreads := nt, usedAsync := false
            chunks := [], directCount := some num_elements
            genericArgs := none, outShape := [num_elements] }
      else
        Except.ok
          { numDims := num_dims, numThreads := nt, usedAsync := true
            chunks := (List.range nt).map
              (fun i => (i * str, chunkSize num_elements str i))
            directCount := none, genericArgs := none
            outShape := [num_elements] }
    else
      Except.ok
        { numDims := num_dims, numThreads := nt, usedAsync := false
          chunks := [], directCount := some num_elements
          genericArgs := some (genericCallArgs (axes.map (fun a => a.getD 0 0))
            valuesShape.prod num_elements)
          outShape := [num_elements] }

/-! ## Helper lemmas -/

theorem chunkSize_le_stride (ne s i : Nat) : chunkSize ne s i ≤ s := by
  unfold chunkSize
  split <;> omega

theorem chunkSet_disjoint_of_lt (ne w i j : Nat) (h : i < j) :
    Disjoint (chunkSet ne w i) (chunkSet ne w j) := by
  rw [Finset.disjoint_left]
  intro a hai haj
  simp only [chunkSet, Finset.mem_Ico] at hai haj
  have h1 : chunkSize ne (stride ne w) i ≤ stride ne w := chunkSize_le_stride _ _ _
  have h2 : (i + 1) * stride ne w ≤ j * stride ne w :=
    Nat.mul_le_mul_right _ h
  rw [Nat.succ_mul] at h2
  have h4 : a < i * stride ne w + stride ne w :=
    lt_of_lt_of_le hai.2 (Nat.add_le_add_left h1 _)
  exact absurd haj.1 (Nat.not_le_of_lt (lt_of_lt_of_le h4 h2))

theorem num_threads_zero_elements (mt : Nat) : num_threads 0 mt = 1 := by
  unfold num_threads desired_threads
  rcases mt with _ | m
  · rfl
  · have h : min 1 (m + 1) = 1 := Nat.min_eq_left (Nat.succ_le_succ (Nat.zero_le m))
    simp [h]

theorem validate_ok_conditions {axes : List (List Nat)} {vs is : List Nat} {n : Nat}
    (h : validate axes vs is = Except.ok n) :
    vs.length ≠ 0 ∧ is.length ≠ 0 ∧ (∀ a ∈ axes, a.length = 1) ∧
    axes.length = vs.length ∧ is.length = 2 ∧ axes.length = is.getD 1 0 ∧
    n = is.getD 0 0 := by
  unfold validate at h
  split at h
  case isTrue => exact Except.noConfusion h
  case isFalse c1 =>
  split at h
  case isTrue => exact Except.noConfusion h
  case isFalse c2 =>
  split at h
  case isTrue => exact Except.noConfusion h
  case isFalse c3 =>
  split at h
  case isTrue => exact Except.noConfusion h
  case isFalse c4 =>
  split at h
  case isTrue => exact Except.noConfusion h
  case isFalse c5 =>
  injection h with h
  subst h
  push_neg at c1 c3 c4 c5
  refine ⟨c1.1, c1.2, ?_, c3, c4, c5, rfl⟩
  intro a ha
  by_contra hne
  exact c2 (List.any_eq_true.mpr ⟨a, ha, by simpa using hne⟩)

/-! ## Claim theorems -/

/-- C1: the claim says that with effective worker count `w > 1` every
chunk except the last has `stride = num_elements / w` points, the last
chunk has `num_elements - stride * (w - 1)` points, and the chunks cover
every query index.  The code violates this: at `num_elements = 10001`
with `max_threads = 2` the dispatch layer picks 2 workers and
`stride = 5000`, the claim requires the last chunk to have
`10001 - 5000 * 1 = 5001` points, but the ternary at `module.cpp:110`
gives it only 5000 (because `5000 + 5000 < 10001` still holds for the
last worker), so query index 10000 belongs to no chunk at all. -/
theorem chunk_partition_drops_remainder :
    num_threads 10001 2 = 2 ∧
    stride 10001 2 = 5000 ∧
    chunkSize 10001 (stride 10001 2) 0 = 5000 ∧
    chunkSize 10001 (stride 10001 2) 1 = 5000 ∧
    10001 - stride 10001 2 * (num_threads 10001 2 - 1) = 5001 ∧
    coveredByChunks 10001 (num_threads 10001 2) 10000 = false := by
  decide

/-- C2: the claim says the worker count chosen by the dispatch layer never
changes which output entries are written.  The code violates this: on a
batch of 10001 query points, `max_threads = 1` runs the kernel directly
and every output index (in particular 10000) is written, while
`max_threads = 2` fans out two chunks of 5000 points each and output
index 10000 is written by no worker, so the two calls do not produce the
same output. -/
theorem write_set_depends_on_worker_count :
    num_threads 10001 1 = 1 ∧
    num_threads 10001 2 = 2 ∧
    writesIndex 10001 1 10000 = true ∧
    writesIndex 10001 2 10000 = false := by
  decide

/-- C3: for every `num_elements` and every `max_threads` (default 8), the
effective worker count computed by `module.cpp:63-76` equals the
specification table: desired is 1 below 10000 elements, 2 below 4000000,
4 below 160000000, else 8; effective is `min(desired, max_threads)`
floored to 1 when that minimum is 0. -/
theorem effective_workers_match_spec_table (ne mt : Nat) :
    num_threads ne mt = spec_effective_workers ne mt ∧
    num_threads ne default_max_threads = spec_effective_workers ne 8 := by
  exact ⟨rfl, rfl⟩

/-- C4: the claim says a failure inside a parallel worker is re-raised to
the caller after all workers are joined and never silently discarded.
The code violates this: the join loop evaluates `std::move(future)`
without retrieving any result, so with a first worker that failed
(e.g. an out-of-range access) and a second that succeeded, the embedded
join still reports success, while the join the specification requires
propagates the failure. -/
theorem join_discards_worker_failure :
    joinWorkers [Except.error "index out of range", Except.ok ()] =
      Except.ok () ∧
    specJoinWorkers [Except.error "index out of range", Except.ok ()] =
      Except.error "index out of range" :=
  ⟨rfl, rfl⟩

/-- C5: the claim says the generic N-dimensional kernel receives a
sample-tensor slice whose length is the tensor element count and a
query-batch slice covering all `N × D` query coordinates.  The code
violates this: for a 4-dimensional grid with axes of length 2 (16-element
sample tensor) and one query point, `module.cpp:215-222` passes
`values_info.size / sizeof(double) = 16 / 8 = 2` as the sample-tensor
slice length and reuses that same values-derived quantity, 2, as the
query-slice length, where the claimed contract requires 16 and
`1 × 4 = 4`. -/
theorem generic_kernel_slice_lengths_diverge :
    interpolateCall [[2], [2], [2], [2]] [2, 2, 2, 2] [1, 4] 8 =
      Except.ok
        { numDims := 4
          numThreads := 1
          usedAsync := false
          chunks := []
          directCount := some 1
          genericArgs := some
            { gridLens := [2, 2, 2, 2], valuesLen := 2, interpLen := 2, outLen := 1 }
          outShape := [1] } ∧
    specGenericCallArgs [2, 2, 2, 2] 16 1 4 =
      { gridLens := [2, 2, 2, 2], valuesLen := 16, interpLen := 4, outLen := 1 } :=
  ⟨rfl, rfl⟩

/-- C6: whenever the axis count differs from the values rank, or the query
array is not 2-dimensional, or its column count differs from the axis
count, or some axis is not 1-dimensional, or the values or query array is
scalar, the call fails with one of the validation errors of
`module.cpp:26-53`; an `Except.error` result carries no `CallResult`, so
no kernel is selected and no output shape is produced — validation
precedes the buffer allocation at `module.cpp:55`. -/
theorem bad_shapes_rejected_before_dispatch (axes : List (List Nat))
    (vs is : List Nat) (mt : Nat)
    (h : axes.length ≠ vs.length ∨ is.length ≠ 2 ∨
      (is.length = 2 ∧ is.getD 1 0 ≠ axes.length) ∨
      (∃ a ∈ axes, a.length ≠ 1) ∨ vs.length = 0 ∨ is.length = 0) :
    ∃ e, interpolateCall axes vs is mt = Except.error e := by
  cases hv : validate axes vs is with
  | error e => exact ⟨e, by simp [interpolateCall, hv]⟩
  | ok n =>
    obtain ⟨c1, c2, c3, c4, c5, c6, -⟩ := validate_ok_conditions hv
    rcases h with h | h | ⟨-, h2⟩ | ⟨a, ha, hne⟩ | h | h
    · exact absurd c4 h
    · exact absurd c5 h
    · exact absurd c6.symm h2
    · exact absurd (c3 a ha) hne
    · exact absurd h c1
    · exact absurd h c2

/-- Witness for C6 at a concrete input: one 1-D axis but a 2-D values
array (rank mismatch) is rejected. -/
theorem bad_shapes_rejected_before_dispatch_witness :
    ∃ e, interpolateCall [[2]] [2, 2] [3, 1] 8 = Except.error e :=
  bad_shapes_rejected_before_dispatch [[2]] [2, 2] [3, 1] 8 (Or.inl (by decide))

/-- C7: in every multi-worker dispatch, for every `num_elements` and every
effective worker count `w`, distinct workers `i ≠ j` receive pairwise
disjoint output regions: worker `i` writes only into
`out[i * stride .. i * stride + chunkSize i)` and these intervals never
overlap. -/
theorem worker_output_regions_disjoint (ne w i j : Nat) (_hw : 1 < w)
    (_hi : i < w) (_hj : j < w) (hij : i ≠ j) :
    Disjoint (chunkSet ne w i) (chunkSet ne w j) := by
  rcases Nat.lt_or_ge i j with h | h
  · exact chunkSet_disjoint_of_lt ne w i j h
  · exact (chunkSet_disjoint_of_lt ne w j i
      (Nat.lt_of_le_of_ne h (Ne.symm hij))).symm

/-- Witness for C7 at a concrete input: with 10000 query points and two
workers, worker 0 and worker 1 write disjoint regions. -/
theorem worker_output_regions_disjoint_witness :
    Disjoint (chunkSet 10000 2 0) (chunkSet 10000 2 1) :=
  worker_output_regions_disjoint 10000 2 0 1 (by decide) (by decide)
    (by decide) (by decide)

/-- C8: the claim says every successful call returns a freshly allocated
output of length exactly `N`, shape `(N,)`, with one interpolated value
per query point.  The length and shape hold, but the code violates the
one-value-per-query-point part: at `N = 4000001` query points with the
default `max_threads = 8` the call succeeds and returns shape
`(4000001,)`, yet the four chunks of 1000000 points each leave output
index 4000000 written by no worker, so that entry holds no interpolated
value. -/
theorem output_shape_but_entry_unwritten :
    interpolateCall [[5]] [5] [4000001, 1] default_max_threads =
      Except.ok
        { numDims := 1
          numThreads := 4
          usedAsync := true
          chunks := [(0, 1000000), (1000000, 1000000),
            (2000000, 1000000), (3000000, 1000000)]
          directCount := none
          genericArgs := none
          outShape := [4000001] } ∧
    writesIndex 4000001 default_max_threads 4000000 = false :=
  ⟨rfl, by decide⟩

/-- C9: for every well-shaped input whose query batch has zero rows, the
call succeeds, the effective worker count is 1, the `std::async` fan-out
branch is not taken (no chunks are created), the kernel is invoked
directly on zero elements, and the returned array has shape `(0,)`. -/
theorem empty_batch_runs_single_threaded (axes : List (List Nat))
    (vs : List Nat) (mt : Nat)
    (h1 : ∀ a ∈ axes, a.length = 1) (h2 : axes.length = vs.length)
    (h3 : vs ≠ []) :
    ∃ r, interpolateCall axes vs [0, axes.length] mt = Except.ok r ∧
      r.numThreads = 1 ∧ r.usedAsync = false ∧ r.chunks = [] ∧
      r.directCount = some 0 ∧ r.outShape = [0] := by
  have hvs : vs.length ≠ 0 := by
    simpa [List.length_eq_zero] using h3
  have hany : (axes.any fun a => a.length ≠ 1) = false := by
    rw [List.any_eq_false]
    intro a ha
    simp [h1 a ha]
  have hv : validate axes vs [0, axes.length] = Except.ok 0 := by
    unfold validate
    rw [if_neg (by simp [hvs]), if_neg (by rw [hany]; exact Bool.false_ne_true),
      if_neg (by simp [h2]), if_neg (by simp), if_neg (by simp)]
    rfl
  rw [interpolateCall, hv]
  simp only [num_threads_zero_elements]
  split
  · exact ⟨_, rfl, rfl, rfl, rfl, rfl, rfl⟩
  · exact ⟨_, rfl, rfl, rfl, rfl, rfl, rfl⟩

/-- Witness for C9 at a concrete input: one axis of length 3, a 1-D
values array, and an empty query batch of shape `(0, 1)`. -/
theorem empty_batch_runs_single_threaded_witness :
    ∃ r, interpolateCall [[3]] [3] [0, 1] 8 = Except.ok r ∧
      r.numThreads = 1 ∧ r.usedAsync = false ∧ r.chunks = [] ∧
      r.directCount = some 0 ∧ r.outShape = [0] :=
  empty_batch_runs_single_threaded [[3]] [3] 8 (by decide) (by decide)
    (by decide)

/-- C10: every call with an empty axes list fails before any kernel runs:
a scalar values or query array is rejected first by the scalar check at
`module.cpp:26-28`, and any non-scalar values array has rank at least 1,
which cannot equal the axis count 0, so the rank-mismatch check at
`module.cpp:36-41` rejects everything else. -/
theorem empty_axes_always_rejected (vs is : List Nat) (mt : Nat) :
    (∃ e, interpolateCall [] vs is mt = Except.error e) ∧
    (vs.length = 0 ∨ is.length = 0 →
      interpolateCall [] vs is mt = Except.error ValError.scalarInput) ∧
    (vs ≠ [] → is ≠ [] →
      interpolateCall [] vs is mt =
        Except.error (ValError.gridValuesMismatch 0 vs.length)) := by
  by_cases hc : vs.length = 0 ∨ is.length = 0
  · have hv : interpolateCall [] vs is mt = Except.error ValError.scalarInput := by
      rw [interpolateCall, validate, if_pos hc]
    refine ⟨⟨_, hv⟩, fun _ => hv, fun h3 h4 => ?_⟩
    rcases hc with hc | hc
    · exact absurd (List.length_eq_zero.mp hc) h3
    · exact absurd (List.length_eq_zero.mp hc) h4
  · have hvs : vs.length ≠ 0 := fun h => hc (Or.inl h)
    have hv : interpolateCall [] vs is mt =
        Except.error (ValError.gridValuesMismatch 0 vs.length) := by
      rw [interpolateCall, validate, if_neg hc]
      rw [if_neg (by simp), if_pos (by simpa using Ne.symm hvs)]
      rfl
    refine ⟨⟨_, hv⟩, fun h => absurd h hc, fun _ _ => hv⟩

/-- Witness for C10 at a concrete input: no axes, a 1-D values array of
length 2, a query batch of shape `(1, 1)`. -/
theorem empty_axes_always_rejected_witness :
    interpolateCall [] [2] [1, 1] 8 =
      Except.error (ValError.gridValuesMismatch 0 1) :=
  (empty_axes_always_rejected [2] [1, 1] 8).2.2 (by decide) (by decide)
